import Mathlib

/-!
Shallow embedding of `pixelqart.py`: a randomized, parallel search for a
QR code that visually encodes a pixel-art design.  Pure image
transformations (`split_design`, compositing, scoring loop) are embedded
as executable Lean functions; the external capabilities (remote QArt
generator, barcode decoder, JPEG round-trip, raster resize) are passed in
as function parameters; the concurrent worker loop (`search_qrcode`) is
embedded as a small-step transition system over an explicit scheduler.
-/

/-- One RGBA pixel, each channel a byte value 0..255. -/
structure RGBA where
  r : Nat
  g : Nat
  b : Nat
  a : Nat
deriving DecidableEq

/-- A raster image: dimensions plus a pixel function.  Only positions
`x < width, y < height` are meaningful. -/
structure Raster where
  width : Nat
  height : Nat
  px : Nat → Nat → RGBA

/-- `Image.new('RGBA', (w, h))`: a fully transparent raster. -/
def blankRaster (w h : Nat) : Raster :=
  { width := w, height := h, px := fun _ _ => ⟨0, 0, 0, 0⟩ }

/-- `dst.paste(src, off)` with no mask: copies `src` (alpha included)
over the rectangle at offset `off`, leaving other pixels alone. -/
def paste (dst src : Raster) (off : Nat × Nat) : Raster :=
  { dst with px := fun x y =>
      if off.1 ≤ x ∧ x < off.1 + src.width ∧ off.2 ≤ y ∧ y < off.2 + src.height then
        src.px (x - off.1) (y - off.2)
      else dst.px x y }

/-- One channel of PIL paste-with-mask blending: full mask keeps the
source, zero mask keeps the destination. -/
def blendChannel (dst src a : Nat) : Nat :=
  (dst * (255 - a) + src * a) / 255

/-- Blend a whole pixel under mask value `a`. -/
def blendPixel (dst src : RGBA) (a : Nat) : RGBA :=
  ⟨blendChannel dst.r src.r a, blendChannel dst.g src.g a,
   blendChannel dst.b src.b a, blendChannel dst.a src.a a⟩

/-- `dst.paste(src, off, mask=src)`: paints `src` at offset `off` using
the alpha channel of `src` itself as the paint mask. -/
def pasteMask (dst src : Raster) (off : Nat × Nat) : Raster :=
  { dst with px := fun x y =>
      if off.1 ≤ x ∧ x < off.1 + src.width ∧ off.2 ≤ y ∧ y < off.2 + src.height then
        let s := src.px (x - off.1) (y - off.2)
        blendPixel (dst.px x y) s s.a
      else dst.px x y }

/-- `QRCODE_SIZE = (41, 41)` (QR Code v6). -/
def QRCODE_SIZE : Nat × Nat := (41, 41)

/-- `QART_MARGIN = 4`. -/
def QART_MARGIN : Nat := 4

/-- Marker color for "must render as black": pure opaque blue. -/
def NECESSARY_BLACK : RGBA := ⟨0, 0, 255, 255⟩

/-- Marker color for "must render as white": pure opaque yellow. -/
def NECESSARY_WHITE : RGBA := ⟨255, 255, 0, 255⟩

/-- A loaded PIL image: a raster together with its color mode string. -/
structure PImage where
  mode : String
  width : Nat
  height : Nat
  px : Nat → Nat → RGBA

/-- `FormatError`: wrong color mode or wrong dimensions
(the two assertions of `split_design`). -/
inductive FormatError where
  | badMode
  | badSize
deriving DecidableEq

/-- Per-pixel rule of `split_design` for the desired raster: markers are
recolored to solid black/white, other pixels pass through unchanged. -/
def desiredPx (p : RGBA) : RGBA :=
  if p = NECESSARY_BLACK then ⟨0, 0, 0, 255⟩
  else if p = NECESSARY_WHITE then ⟨255, 255, 255, 255⟩
  else p

/-- Per-pixel rule of `split_design` for the necessary raster: markers
become solid black/white, every other position keeps the fully
transparent default of `Image.new`. -/
def necessaryPx (p : RGBA) : RGBA :=
  if p = NECESSARY_BLACK then ⟨0, 0, 0, 255⟩
  else if p = NECESSARY_WHITE then ⟨255, 255, 255, 255⟩
  else ⟨0, 0, 0, 0⟩

/-- `split_design`: asserts the input is an RGBA raster of size
`QRCODE_SIZE`, then splits it pixelwise into the desired raster and the
necessary raster.  The Python assertions are embedded as `FormatError`
results. -/
def split_design (img : PImage) : Except FormatError (Raster × Raster) :=
  if img.mode = "RGBA" then
    if (img.width, img.height) = QRCODE_SIZE then
      Except.ok
        ({ width := 41, height := 41, px := fun x y => desiredPx (img.px x y) },
         { width := 41, height := 41, px := fun x y => necessaryPx (img.px x y) })
    else Except.error FormatError.badSize
  else Except.error FormatError.badMode

/-- The compositor of `search_qrcode` lines 104-116: given the already
downscaled generated raster (the source resizes the service response to
`(41 + margin*2, 41 + margin*2)`), paste it onto a fresh transparent
canvas of that size, then paste the necessary raster on top at offset
`(margin, margin)` masked by its own alpha channel.  The margin is the
source constant `QART_MARGIN = 4`, kept as a parameter. -/
def composite (qrcodeSmall necessary : Raster) (margin : Nat) : Raster :=
  let size : Nat × Nat := (QRCODE_SIZE.1 + margin * 2, QRCODE_SIZE.2 + margin * 2)
  let canvas := blankRaster size.1 size.2
  let canvas1 := paste canvas qrcodeSmall (0, 0)
  pasteMask canvas1 necessary (margin, margin)

/-- One symbol reported by the barcode-decode capability (pyzbar's
`Decoded`): its symbology type string and payload. -/
structure DecodedSymbol where
  type : String
  data : String
deriving DecidableEq

/-- Expected symbology type of an accepted candidate. -/
def qrType : String := "QRCODE"

/-- `len(info) == 1 and info[0].type == 'QRCODE'` (lines 119 and 161):
exactly one detected symbol and it is a QR code. -/
def decodeOk (info : List DecodedSymbol) : Bool :=
  info.length == 1 &&
    (match info.head? with
     | some s => s.type == qrType
     | none => false)

/-- Validator of `search_qrcode` line 118-119: upscale the candidate to
twice its size via the resize capability, run the barcode-decode
capability, and accept iff exactly one QR symbol is detected. -/
def isValidCandidate (decode : Raster → List DecodedSymbol)
    (resize : Raster → Nat × Nat → Raster) (canvas : Raster) : Bool :=
  let info := decode (resize canvas (canvas.width * 2, canvas.height * 2))
  decodeOk info

/-- Size-precondition failure of `eval_qrcode` (its two assertions). -/
inductive EvalError where
  | badSize
deriving DecidableEq

/-- The padded, upscaled image `eval_qrcode` recompresses at each
quality level: the 10x resize pasted with its own alpha mask into a
transparent canvas of twice that size, centered. -/
def expandedForEval (resize : Raster → Nat × Nat → Raster) (qrcode : Raster) : Raster :=
  let w := qrcode.width
  let h := qrcode.height
  let resized := resize qrcode (w * 10, h * 10)
  pasteMask (blankRaster (w * 20) (h * 20)) resized (w * 5, h * 5)

/-- `eval_qrcode` lines 139-165: assert the candidate is 49x49, build the
expanded image, then for each JPEG quality 1..95 run the
convert-compress-reopen capability `jpegAt` and the decode capability,
counting the levels that still decode as exactly one QR symbol; the
count starts from the baseline 1. -/
def eval_qrcode (resize : Raster → Nat × Nat → Raster)
    (jpegAt : Raster → Nat → Raster)
    (decode : Raster → List DecodedSymbol)
    (qrcode : Raster) : Except EvalError Nat :=
  if qrcode.width = QRCODE_SIZE.1 + QART_MARGIN * 2 ∧
     qrcode.height = QRCODE_SIZE.2 + QART_MARGIN * 2 then
    let expanded := expandedForEval resize qrcode
    Except.ok ((List.range' 1 95).foldl
      (fun success quality =>
        let img := jpegAt expanded quality
        let info := decode img
        if decodeOk info then success + 1 else success) 1)
  else Except.error EvalError.badSize

/-- The double-quote separator of `r.content.decode().split('"')`. -/
def quoteChar : Char := '\"'

/-- Python's `str.split` on the one-character separator `'"'`, over the
decoded response text. -/
def splitQuote : List Char → List (List Char)
  | [] => [[]]
  | c :: cs =>
    if c = quoteChar then [] :: splitQuote cs
    else
      match splitQuote cs with
      | [] => [[c]]
      | h :: t => (c :: h) :: t

/-- The `data:image/png;base64,` payload marker. -/
def payloadMarker : String := "data:image/png;base64,"

/-- Ways one generation attempt dies on a malformed service response. -/
inductive GenFailure where
  | unpackError
  | noPayloadMarker
  | invalidImage
  | badDimensions
deriving DecidableEq

/-- `_, data, *_ = r.content.decode().split('"')` (line 98): the second
quote-separated field of the response body, when it exists. -/
def extractData (content : String) : Option String :=
  match splitQuote content.data with
  | _ :: data :: _ => some (String.mk data)
  | _ => none

/-- Lines 98-110 of `search_qrcode`: unpack the quoted payload, assert
the base64 PNG marker, decode the embedded image through the `openImage`
capability, and assert the 4x-scaled 49x49 dimensions.  Each Python
assertion (and the unpack `ValueError`) is a `GenFailure`. -/
def processResponse (openImage : String → Option Raster)
    (content : String) : Except GenFailure Raster :=
  match extractData content with
  | none => Except.error GenFailure.unpackError
  | some data =>
    if payloadMarker.data.isPrefixOf data.data then
      match openImage (data.drop payloadMarker.length) with
      | none => Except.error GenFailure.invalidImage
      | some img =>
        if img.width = 4 * (QRCODE_SIZE.1 + QART_MARGIN * 2) ∧
           img.height = 4 * (QRCODE_SIZE.2 + QART_MARGIN * 2) then
          Except.ok img
        else Except.error GenFailure.badDimensions
    else Except.error GenFailure.noPayloadMarker

/-- How a worker's loop ends in the response-processing projection. -/
inductive WorkerEnd where
  | crashed (e : GenFailure)
  | foundOk
  | fuelOut
deriving DecidableEq

/-- Projection of the `while True` loop of `search_qrcode` onto response
handling: each iteration consumes one service response; a `GenFailure`
propagates as an uncaught exception and kills the worker, validator
rejection silently continues with the next attempt, validator acceptance
ends the loop. -/
def workerLoop (openImage : String → Option Raster)
    (validate : Raster → Bool) : List String → WorkerEnd
  | [] => WorkerEnd.fuelOut
  | c :: rest =>
    match processResponse openImage c with
    | Except.error e => WorkerEnd.crashed e
    | Except.ok img =>
      if validate img then WorkerEnd.foundOk
      else workerLoop openImage validate rest

/-- Run-level errors of `main`. -/
inductive MainError where
  | format (e : FormatError)
  | upload
deriving DecidableEq

/-- `main` lines 168-185 up to worker submission: split the design,
upload the desired raster through the upload capability, then submit
`concurrency` workers.  Returns the uploaded handle and the number of
workers started. -/
def mainModel (upload : Raster → Option String)
    (img : PImage) (concurrency : Nat) : Except MainError (String × Nat) :=
  match split_design img with
  | Except.error e => Except.error (MainError.format e)
  | Except.ok (desired, _necessary) =>
    match upload desired with
    | none => Except.error MainError.upload
    | some handle => Except.ok (handle, concurrency)

/-- Number of workers `mainModel` actually starts. -/
def workersStarted (r : Except MainError (String × Nat)) : Nat :=
  match r with
  | Except.ok (_, n) => n
  | Except.error _ => 0

/-- Concrete design of the spec's scenario: all transparent except a
marker-black pixel at the origin and a marker-white pixel at the
opposite corner. -/
def scenarioImg : PImage :=
  { mode := "RGBA", width := 41, height := 41,
    px := fun x y =>
      if x = 0 ∧ y = 0 then NECESSARY_BLACK
      else if x = 40 ∧ y = 40 then NECESSARY_WHITE
      else ⟨0, 0, 0, 0⟩ }

/-- A wrong-mode design input, for exercising the format gate. -/
def badModeImg : PImage :=
  { mode := "RGB", width := 41, height := 41, px := fun _ _ => ⟨0, 0, 0, 0⟩ }

/-- A fixed uploaded-image id for stubbing the upload capability. -/
def stubHandle : String := "stub-id"

/-- A stub upload capability that always hands back a fixed id. -/
def stubUpload : Raster → Option String := fun _ => some stubHandle

/-- Program counter of one worker thread inside the `while True` loop of
`search_qrcode`.  `top` is about to run the `found.is_set()` check of
line 73; `generating` is about to perform the generation request and
response processing (lines 77-111); `validating` has the composited
candidate and is about to run lines 118-121; `persisting` was accepted
and is about to evaluate and save the file (lines 126-133); `setting` is
about to run `found.set()` and `break` (lines 135-136). -/
inductive Pc where
  | top
  | generating
  | validating
  | persisting
  | setting
  | done
deriving DecidableEq

/-- Local state of one worker: program counter, number of generation
attempts finished, number of files this worker has saved, and whether it
exited through the top-of-loop `found.is_set()` check. -/
structure WState where
  pc : Pc
  attempt : Nat
  persisted : Nat
  exitedByFlag : Bool
deriving DecidableEq

/-- Shared state of the run: the `found` event plus every worker's local
state. -/
structure SState where
  found : Bool
  workers : List WState
deriving DecidableEq

/-- One atomic step of worker `i`.  `accepts i k` tells whether worker
`i`'s `k`-th generated candidate passes the validator (the injected
generator/validator stub).  Mirrors `search_qrcode`: the flag is read
only at `top`; persistence (`canvas.save`) happens strictly before
`found.set()`. -/
def step (accepts : Nat → Nat → Bool) (s : SState) (i : Nat) : SState :=
  match s.workers[i]? with
  | none => s
  | some w =>
    match w.pc with
    | Pc.top =>
      if s.found then
        { s with workers := s.workers.set i { w with pc := Pc.done, exitedByFlag := true } }
      else
        { s with workers := s.workers.set i { w with pc := Pc.generating } }
    | Pc.generating =>
      { s with workers := s.workers.set i { w with pc := Pc.validating } }
    | Pc.validating =>
      if accepts i w.attempt then
        { s with workers := s.workers.set i { w with pc := Pc.persisting, attempt := w.attempt + 1 } }
      else
        { s with workers := s.workers.set i { w with pc := Pc.top, attempt := w.attempt + 1 } }
    | Pc.persisting =>
      { s with workers := s.workers.set i { w with pc := Pc.setting, persisted := w.persisted + 1 } }
    | Pc.setting =>
      { found := true, workers := s.workers.set i { w with pc := Pc.done } }
    | Pc.done => s

/-- Run the system under an explicit interleaving: each schedule entry
names the worker that takes the next atomic step. -/
def run (accepts : Nat → Nat → Bool) (sched : List Nat) (s : SState) : SState :=
  sched.foldl (step accepts) s

/-- Initial state of `main`: the event is clear and `n` workers all
stand at the top of their loops. -/
def initState (n : Nat) : SState :=
  { found := false, workers := List.replicate n { pc := Pc.top, attempt := 0, persisted := 0, exitedByFlag := false } }

/-- Total number of Search Outcomes persisted across all workers. -/
def totalPersisted (s : SState) : Nat :=
  (s.workers.map WState.persisted).sum

/-- Per-worker invariant of the search loop: a worker saves at most one
file, a worker that exited through the top-of-loop flag check is done
and saved nothing, and a worker that has not yet reached the
save-then-set tail of the loop has saved nothing. -/
def WInv (w : WState) : Prop :=
  w.persisted ≤ 1 ∧
  (w.exitedByFlag = true → w.pc = Pc.done ∧ w.persisted = 0) ∧
  (w.pc ≠ Pc.setting → w.pc ≠ Pc.done → w.persisted = 0)

/-- A concrete generated raster at composite resolution, constant color. -/
def wGen : Raster :=
  { width := 49, height := 49, px := fun _ _ => ⟨7, 8, 9, 255⟩ }

/-- A concrete necessary raster: one opaque black pixel at the origin,
transparent elsewhere. -/
def wNec : Raster :=
  { width := 41, height := 41,
    px := fun x y => if x = 0 ∧ y = 0 then ⟨0, 0, 0, 255⟩ else ⟨0, 0, 0, 0⟩ }

/-- A stub barcode decoder that never detects a symbol. -/
def wDecodeNone : Raster → List DecodedSymbol := fun _ => []

/-- A stub resize capability returning its input unchanged. -/
def wResizeId : Raster → Nat × Nat → Raster := fun r _ => r

/-- A stub JPEG round-trip capability returning its input unchanged. -/
def wJpegId : Raster → Nat → Raster := fun r _ => r

/-- A concrete 49x49 candidate raster. -/
def wQr49 : Raster := blankRaster 49 49

/-- A stub image-open capability that always fails. -/
def wOpenNone : String → Option Raster := fun _ => none

/-- A stub validator that accepts everything. -/
def wValidateTrue : Raster → Bool := fun _ => true

/-- A service response carrying no quoted payload at all. -/
def wBadContent : String := "halt and catch fire"

/-- A generator/validator stub on which every attempt is accepted. -/
def acceptsAll : Nat → Nat → Bool := fun _ _ => true

/-- A mid-race shared state: worker 0 has just returned from its
generation call (about to validate), worker 1 has already persisted and
set the flag. -/
def c6S : SState :=
  { found := true,
    workers := [WState.mk Pc.validating 0 0 false, WState.mk Pc.done 1 1 false] }

/-- Worker 0's local state inside `c6S`. -/
def c6W : WState := WState.mk Pc.validating 0 0 false

/-- The two marker colors are distinct. -/
theorem marker_colors_ne : NECESSARY_WHITE ≠ NECESSARY_BLACK := by decide

/-- The desired-raster pixel rule never outputs a marker color. -/
theorem desiredPx_no_marker (p : RGBA) :
    desiredPx p ≠ NECESSARY_BLACK ∧ desiredPx p ≠ NECESSARY_WHITE := by
  unfold desiredPx
  split_ifs with h1 h2
  · exact ⟨by decide, by decide⟩
  · exact ⟨by decide, by decide⟩
  · exact ⟨h1, h2⟩

/-- On a well-formed input `split_design` succeeds with the pixelwise
desired and necessary rasters. -/
theorem split_design_ok (img : PImage) (hm : img.mode = "RGBA")
    (hw : img.width = 41) (hh : img.height = 41) :
    split_design img = Except.ok
      ({ width := 41, height := 41, px := fun x y => desiredPx (img.px x y) },
       { width := 41, height := 41, px := fun x y => necessaryPx (img.px x y) }) := by
  simp [split_design, hm, hw, hh, QRCODE_SIZE]

/-- Blending under a fully opaque mask keeps the painted source pixel. -/
theorem blendChannel_full (d s : Nat) : blendChannel d s 255 = s := by
  unfold blendChannel
  norm_num

/-- Blending under a fully transparent mask keeps the destination. -/
theorem blendChannel_zero (d s : Nat) : blendChannel d s 0 = d := by
  unfold blendChannel
  norm_num

/-- A fully opaque mask paints the source pixel exactly. -/
theorem blendPixel_full (d s : RGBA) : blendPixel d s 255 = s := by
  cases s with
  | mk r g b a => simp [blendPixel, blendChannel_full]

/-- A fully transparent mask leaves the destination pixel untouched. -/
theorem blendPixel_zero (d s : RGBA) : blendPixel d s 0 = d := by
  cases d with
  | mk r g b a => simp [blendPixel, blendChannel_zero]

/-- Counting accumulation of the scoring loop equals the length of the
filtered list. -/
theorem foldl_count_succ (p : Nat → Bool) (l : List Nat) (a : Nat) :
    l.foldl (fun s q => if p q then s + 1 else s) a = a + (l.filter p).length := by
  induction l generalizing a with
  | nil => simp
  | cons q t ih =>
    by_cases hq : p q <;> simp [List.foldl, List.filter, hq, ih] <;> omega

/-- One scheduler step preserves the per-worker invariant. -/
theorem winv_step (accepts : Nat → Nat → Bool) (s : SState) (i : Nat)
    (h : ∀ w ∈ s.workers, WInv w) : ∀ w ∈ (step accepts s i).workers, WInv w := by
  have hset : ∀ v : WState, WInv v → ∀ w ∈ s.workers.set i v, WInv w := by
    intro v hv w hmem
    rcases List.mem_or_eq_of_mem_set hmem with h1 | rfl
    · exact h w h1
    · exact hv
  cases hw : s.workers[i]? with
  | none => simp only [step, hw]; exact h
  | some w0 =>
    obtain ⟨hp1, hflag, hzero⟩ := h w0 (List.getElem?_mem hw)
    cases hpc : w0.pc
    case top =>
      by_cases hf : s.found
      · simp only [step, hw, hpc, hf, if_true]
        exact hset _ ⟨hp1, fun _ => ⟨rfl, hzero (by simp [hpc]) (by simp [hpc])⟩,
          fun _ h2 => absurd rfl h2⟩
      · simp only [step, hw, hpc, hf, if_false]
        exact hset _ ⟨hp1, fun hf2 => absurd (hflag hf2).1 (by simp [hpc]),
          fun _ _ => hzero (by simp [hpc]) (by simp [hpc])⟩
    case generating =>
      simp only [step, hw, hpc]
      exact hset _ ⟨hp1, fun hf2 => absurd (hflag hf2).1 (by simp [hpc]),
        fun _ _ => hzero (by simp [hpc]) (by simp [hpc])⟩
    case validating =>
      by_cases hacc : accepts i w0.attempt
      · simp only [step, hw, hpc, hacc, if_true]
        exact hset _ ⟨hp1, fun hf2 => absurd (hflag hf2).1 (by simp [hpc]),
          fun _ _ => hzero (by simp [hpc]) (by simp [hpc])⟩
      · simp only [step, hw, hpc, hacc, if_false]
        exact hset _ ⟨hp1, fun hf2 => absurd (hflag hf2).1 (by simp [hpc]),
          fun _ _ => hzero (by simp [hpc]) (by simp [hpc])⟩
    case persisting =>
      have hz : w0.persisted = 0 := hzero (by simp [hpc]) (by simp [hpc])
      simp only [step, hw, hpc]
      exact hset _ ⟨by simp [hz], fun hf2 => absurd (hflag hf2).1 (by simp [hpc]),
        fun hns _ => absurd rfl hns⟩
    case setting =>
      simp only [step, hw, hpc]
      exact hset _ ⟨hp1, fun hf2 => absurd (hflag hf2).1 (by simp [hpc]),
        fun _ hnd => absurd rfl hnd⟩
    case done =>
      simp only [step, hw, hpc]
      exact h

/-- Any scheduled run preserves the per-worker invariant. -/
theorem winv_run (accepts : Nat → Nat → Bool) (sched : List Nat) (s : SState)
    (h : ∀ w ∈ s.workers, WInv w) : ∀ w ∈ (run accepts sched s).workers, WInv w := by
  induction sched generalizing s with
  | nil => exact h
  | cons i t ih => exact ih (step accepts s i) (winv_step accepts s i h)

/-- The invariant holds at the start of a run. -/
theorem winv_init (n : Nat) : ∀ w ∈ (initState n).workers, WInv w := by
  intro w hmem
  simp only [initState] at hmem
  have := List.eq_of_mem_replicate hmem
  subst this
  exact ⟨by decide, by simp, fun _ _ => rfl⟩

/-- Claim C1 counterexample: with two workers whose validators accept
concurrently (both pass validation before either reaches `found.set()`),
an interleaving exists in which both workers persist an outcome, so two
Search Outcomes are persisted in one run — there is no atomic
check-and-set between validation and persistence. -/
theorem c1_counterexample_two_persisted :
    totalPersisted (run acceptsAll [0, 0, 0, 1, 1, 1, 0, 0, 1, 1] (initState 2)) = 2 := by
  decide

/-- Claim C1 (amended): each worker persists at most one outcome and
then sets the stop flag; a worker that observes the stop signal at its
top-of-loop check exits without ever persisting.  Because persistence
happens before the flag is set, with no atomic check-and-set, several
concurrently accepting workers may each persist their own outcome. -/
theorem c1_persist_at_most_one_per_worker (accepts : Nat → Nat → Bool)
    (sched : List Nat) (n : Nat) (w : WState)
    (hw : w ∈ (run accepts sched (initState n)).workers) :
    w.persisted ≤ 1 ∧ (w.exitedByFlag = true → w.persisted = 0) := by
  obtain ⟨h1, h2, _⟩ := winv_run accepts sched (initState n) (winv_init n) w hw
  exact ⟨h1, fun hf => (h2 hf).2⟩

/-- Claim C1 witness: the amended theorem applied to the final state of
a concrete two-worker run. -/
theorem c1_witness :
    (WState.mk Pc.done 1 1 false).persisted ≤ 1 ∧
    ((WState.mk Pc.done 1 1 false).exitedByFlag = true →
      (WState.mk Pc.done 1 1 false).persisted = 0) :=
  c1_persist_at_most_one_per_worker acceptsAll [0, 0, 0, 1, 1, 1, 0, 0, 1, 1] 2
    (WState.mk Pc.done 1 1 false) (by decide)

/-- Claim C2: in the composited candidate, wherever the necessary raster
is opaque the candidate pixel at the margin offset equals the necessary
pixel regardless of the generated raster, and wherever it is transparent
the candidate keeps the downscaled generated raster's pixel. -/
theorem c2_composite_paint_mask (gen nec : Raster) (margin x y : Nat)
    (hgw : gen.width = QRCODE_SIZE.1 + margin * 2)
    (hgh : gen.height = QRCODE_SIZE.2 + margin * 2)
    (hnw : nec.width = 41) (hnh : nec.height = 41)
    (hx : x < 41) (hy : y < 41) :
    ((nec.px x y).a = 255 →
       (composite gen nec margin).px (x + margin) (y + margin) = nec.px x y) ∧
    ((nec.px x y).a = 0 →
       (composite gen nec margin).px (x + margin) (y + margin) =
         gen.px (x + margin) (y + margin)) := by
  simp [QRCODE_SIZE] at hgw hgh
  have hgoal : (composite gen nec margin).px (x + margin) (y + margin) =
      blendPixel (gen.px (x + margin) (y + margin)) (nec.px x y) (nec.px x y).a := by
    simp only [composite, pasteMask, paste, blankRaster, QRCODE_SIZE]
    rw [if_pos (by constructor; omega; constructor; omega; constructor; omega; omega)]
    rw [if_pos (by constructor; omega; constructor; omega; constructor; omega; omega)]
    simp [Nat.add_sub_cancel]
  constructor
  · intro ha; rw [hgoal, ha, blendPixel_full]
  · intro ha; rw [hgoal, ha, blendPixel_zero]

/-- Claim C2 witness: the compositing theorem applied to a concrete
generated raster, necessary raster and margin 4 at position (0, 0). -/
theorem c2_witness :
    ((wNec.px 0 0).a = 255 →
      (composite wGen wNec 4).px (0 + 4) (0 + 4) = wNec.px 0 0) ∧
    ((wNec.px 0 0).a = 0 →
      (composite wGen wNec 4).px (0 + 4) (0 + 4) = wGen.px (0 + 4) (0 + 4)) :=
  c2_composite_paint_mask wGen wNec 4 0 0 (by decide) (by decide) rfl rfl
    (by decide) (by decide)

/-- Claim C3: for every 41x41 RGBA design raster, splitting emits opaque
black into both outputs at must-be-black marker pixels, opaque white
into both at must-be-white marker pixels, and otherwise copies the
source pixel (transparency included) into the desired raster only while
the necessary raster stays fully transparent there. -/
theorem c3_split_design_pixels (img : PImage) (hm : img.mode = "RGBA")
    (hw : img.width = 41) (hh : img.height = 41) (x y : Nat) :
    ∃ d n, split_design img = Except.ok (d, n) ∧
      (img.px x y = NECESSARY_BLACK →
        d.px x y = RGBA.mk 0 0 0 255 ∧ n.px x y = RGBA.mk 0 0 0 255) ∧
      (img.px x y = NECESSARY_WHITE →
        d.px x y = RGBA.mk 255 255 255 255 ∧ n.px x y = RGBA.mk 255 255 255 255) ∧
      (img.px x y ≠ NECESSARY_BLACK → img.px x y ≠ NECESSARY_WHITE →
        d.px x y = img.px x y ∧ n.px x y = RGBA.mk 0 0 0 0) := by
  refine ⟨_, _, split_design_ok img hm hw hh, ?_, ?_, ?_⟩
  · intro h; simp [desiredPx, necessaryPx, h]
  · intro h
    have hne : img.px x y ≠ NECESSARY_BLACK := by
      rw [h]; exact marker_colors_ne
    simp [desiredPx, necessaryPx, h, hne, marker_colors_ne]
  · intro h1 h2; simp [desiredPx, necessaryPx, h1, h2]

/-- Claim C3 witness: the splitter theorem applied to the concrete
scenario design at its marker-black origin pixel. -/
theorem c3_witness :
    ∃ d n, split_design scenarioImg = Except.ok (d, n) ∧
      (scenarioImg.px 0 0 = NECESSARY_BLACK →
        d.px 0 0 = RGBA.mk 0 0 0 255 ∧ n.px 0 0 = RGBA.mk 0 0 0 255) ∧
      (scenarioImg.px 0 0 = NECESSARY_WHITE →
        d.px 0 0 = RGBA.mk 255 255 255 255 ∧ n.px 0 0 = RGBA.mk 255 255 255 255) ∧
      (scenarioImg.px 0 0 ≠ NECESSARY_BLACK → scenarioImg.px 0 0 ≠ NECESSARY_WHITE →
        d.px 0 0 = scenarioImg.px 0 0 ∧ n.px 0 0 = RGBA.mk 0 0 0 0) :=
  c3_split_design_pixels scenarioImg rfl rfl rfl 0 0

/-- Claim C4: the validator accepts exactly when the barcode-decode
capability, run on the upscaled candidate, reports exactly one symbol of
the QR symbology; any zero-or-many decode result is rejected. -/
theorem c4_validator_iff (decode : Raster → List DecodedSymbol)
    (resize : Raster → Nat × Nat → Raster) (canvas : Raster) :
    (isValidCandidate decode resize canvas = true ↔
      ∃ s, decode (resize canvas (canvas.width * 2, canvas.height * 2)) = [s] ∧
        s.type = qrType) ∧
    ((decode (resize canvas (canvas.width * 2, canvas.height * 2))).length ≠ 1 →
      isValidCandidate decode resize canvas = false) := by
  unfold isValidCandidate decodeOk
  rcases hinfo : decode (resize canvas (canvas.width * 2, canvas.height * 2)) with
    _ | ⟨s, _ | ⟨t, r⟩⟩ <;> simp [hinfo]

/-- Claim C4 witness: the validator theorem applied to a symbol-free
decode stub on a concrete candidate. -/
theorem c4_witness :
    (isValidCandidate wDecodeNone wResizeId wQr49 = true ↔
      ∃ s, wDecodeNone (wResizeId wQr49 (wQr49.width * 2, wQr49.height * 2)) = [s] ∧
        s.type = qrType) ∧
    ((wDecodeNone (wResizeId wQr49 (wQr49.width * 2, wQr49.height * 2))).length ≠ 1 →
      isValidCandidate wDecodeNone wResizeId wQr49 = false) :=
  c4_validator_iff wDecodeNone wResizeId wQr49

/-- Claim C5: on a 49x49 candidate the robustness score is 1 plus the
number of JPEG quality levels in 1..95 whose recompressed image still
decodes as exactly one QR symbol; in particular an always-failing
candidate scores 1 and an always-decoding candidate scores 96. -/
theorem c5_eval_score (resize : Raster → Nat × Nat → Raster)
    (jpegAt : Raster → Nat → Raster) (decode : Raster → List DecodedSymbol)
    (qrcode : Raster) (hw : qrcode.width = 49) (hh : qrcode.height = 49) :
    eval_qrcode resize jpegAt decode qrcode =
      Except.ok (1 + ((List.range' 1 95).filter
        (fun q => decodeOk (decode (jpegAt (expandedForEval resize qrcode) q)))).length) ∧
    ((∀ q, 1 ≤ q → q ≤ 95 →
        decodeOk (decode (jpegAt (expandedForEval resize qrcode) q)) = false) →
      eval_qrcode resize jpegAt decode qrcode = Except.ok 1) ∧
    ((∀ q, 1 ≤ q → q ≤ 95 →
        decodeOk (decode (jpegAt (expandedForEval resize qrcode) q)) = true) →
      eval_qrcode resize jpegAt decode qrcode = Except.ok 96) := by
  have hmain : eval_qrcode resize jpegAt decode qrcode =
      Except.ok (1 + ((List.range' 1 95).filter
        (fun q => decodeOk (decode (jpegAt (expandedForEval resize qrcode) q)))).length) := by
    unfold eval_qrcode
    rw [if_pos (by constructor <;> simp [QRCODE_SIZE, QART_MARGIN, hw, hh])]
    simp only [foldl_count_succ]
  refine ⟨hmain, ?_, ?_⟩
  · intro hall
    rw [hmain]
    have : (List.range' 1 95).filter
        (fun q => decodeOk (decode (jpegAt (expandedForEval resize qrcode) q))) = [] := by
      rw [List.filter_eq_nil_iff]
      intro q hq
      have := List.mem_range'_1.mp hq
      simp [hall q (by omega) (by omega)]
    simp [this]
  · intro hall
    rw [hmain]
    have : (List.range' 1 95).filter
        (fun q => decodeOk (decode (jpegAt (expandedForEval resize qrcode) q))) =
        List.range' 1 95 := by
      rw [List.filter_eq_self]
      intro q hq
      have := List.mem_range'_1.mp hq
      simp [hall q (by omega) (by omega)]
    rw [this]
    simp [List.length_range']

/-- Claim C5 witness: the scoring theorem applied to a 49x49 candidate
under a decode stub that never detects a symbol, giving the baseline
score 1. -/
theorem c5_witness :
    eval_qrcode wResizeId wJpegId wDecodeNone wQr49 = Except.ok 1 :=
  (c5_eval_score wResizeId wJpegId wDecodeNone wQr49 rfl rfl).2.1 (fun _ _ _ => rfl)

/-- Claim C6 counterexample: worker 1 persists and sets the flag while
worker 0 sits just after its generation call returned; the flag is set
at that point, yet worker 0 goes on to validate and persist instead of
exiting — the code has no flag check after the generation call. -/
theorem c6_counterexample_no_recheck :
    (run acceptsAll [0, 0, 1, 1, 1, 1, 1] (initState 2)).found = true ∧
    ((run acceptsAll [0, 0, 1, 1, 1, 1, 1] (initState 2)).workers[0]?.map WState.pc
      = some Pc.validating) ∧
    totalPersisted (run acceptsAll [0, 0, 0]
      (run acceptsAll [0, 0, 1, 1, 1, 1, 1] (initState 2))) = 2 := by
  refine ⟨by decide, by decide, by decide⟩

/-- Claim C6 (amended): the global flag is checked only at the top of
each loop iteration — a worker seeing it set there exits immediately
without persisting, while a worker that has already passed that check
behaves identically after its generation call whether or not the flag is
set. -/
theorem c6_flag_checked_only_at_top (accepts : Nat → Nat → Bool) (s : SState)
    (i : Nat) (w : WState) (hw : s.workers[i]? = some w) :
    (w.pc = Pc.top → s.found = true →
      (step accepts s i).workers =
        s.workers.set i { w with pc := Pc.done, exitedByFlag := true }) ∧
    (w.pc = Pc.validating →
      (step accepts { s with found := true } i).workers =
        (step accepts { s with found := false } i).workers) := by
  constructor
  · intro hpc hf
    simp [step, hw, hpc, hf]
  · intro hpc
    by_cases hacc : accepts i w.attempt <;> simp [step, hw, hpc, hacc]

/-- Claim C6 witness: the amended theorem applied to a concrete mid-race
state in which worker 0 has just returned from generation. -/
theorem c6_witness :
    (c6W.pc = Pc.top → c6S.found = true →
      (step acceptsAll c6S 0).workers =
        c6S.workers.set 0 { c6W with pc := Pc.done, exitedByFlag := true }) ∧
    (c6W.pc = Pc.validating →
      (step acceptsAll { c6S with found := true } 0).workers =
        (step acceptsAll { c6S with found := false } 0).workers) :=
  c6_flag_checked_only_at_top acceptsAll c6S 0 c6W (by decide)

/-- Claim C7: a generation response with no quoted payload, a payload
missing the base64 PNG marker, an embedded image that fails to decode,
or a decoded raster that is not 4x(41 + 2x4) in each axis, makes the
attempt fail fatally: the worker loop ends in a crash instead of
continuing with another iteration. -/
theorem c7_generation_assert_crashes (openImage : String → Option Raster)
    (validate : Raster → Bool) (c : String) (rest : List String) :
    (extractData c = none →
      workerLoop openImage validate (c :: rest) =
        WorkerEnd.crashed GenFailure.unpackError) ∧
    (∀ d, extractData c = some d → payloadMarker.data.isPrefixOf d.data = false →
      workerLoop openImage validate (c :: rest) =
        WorkerEnd.crashed GenFailure.noPayloadMarker) ∧
    (∀ d, extractData c = some d → payloadMarker.data.isPrefixOf d.data = true →
      openImage (d.drop payloadMarker.length) = none →
      workerLoop openImage validate (c :: rest) =
        WorkerEnd.crashed GenFailure.invalidImage) ∧
    (∀ d img, extractData c = some d → payloadMarker.data.isPrefixOf d.data = true →
      openImage (d.drop payloadMarker.length) = some img →
      ¬(img.width = 4 * (QRCODE_SIZE.1 + QART_MARGIN * 2) ∧
        img.height = 4 * (QRCODE_SIZE.2 + QART_MARGIN * 2)) →
      workerLoop openImage validate (c :: rest) =
        WorkerEnd.crashed GenFailure.badDimensions) := by
  refine ⟨?_, ?_, ?_, ?_⟩
  · intro h; simp [workerLoop, processResponse, h]
  · intro d hd hpm; simp [workerLoop, processResponse, hd, hpm]
  · intro d hd hpm hoi; simp [workerLoop, processResponse, hd, hpm, hoi]
  · intro d img hd hpm hoi hdim
    simp [workerLoop, processResponse, hd, hpm, hoi, hdim]

/-- Claim C7 witness: the crash theorem applied to a concrete response
with no quoted payload — the worker crashes on its first attempt even
though further responses are available. -/
theorem c7_witness :
    workerLoop wOpenNone wValidateTrue (wBadContent :: [wBadContent]) =
      WorkerEnd.crashed GenFailure.unpackError :=
  (c7_generation_assert_crashes wOpenNone wValidateTrue wBadContent [wBadContent]).1 (by decide)

/-- Claim C8: on a design whose pixels are each a marker or transparent,
splitting and re-scanning the necessary raster's opaque pixels recovers
exactly the marker positions, black at black-marker positions and white
at white-marker positions. -/
theorem c8_split_roundtrip (img : PImage) (hm : img.mode = "RGBA")
    (hw : img.width = 41) (hh : img.height = 41)
    (hmarks : ∀ x y, x < 41 → y < 41 →
      img.px x y = NECESSARY_BLACK ∨ img.px x y = NECESSARY_WHITE ∨ (img.px x y).a = 0) :
    ∃ d n, split_design img = Except.ok (d, n) ∧
      ∀ x y, x < 41 → y < 41 →
        (((n.px x y).a = 255) ↔
          (img.px x y = NECESSARY_BLACK ∨ img.px x y = NECESSARY_WHITE)) ∧
        (img.px x y = NECESSARY_BLACK → n.px x y = RGBA.mk 0 0 0 255) ∧
        (img.px x y = NECESSARY_WHITE → n.px x y = RGBA.mk 255 255 255 255) := by
  refine ⟨_, _, split_design_ok img hm hw hh, ?_⟩
  intro x y hx hy
  by_cases h1 : img.px x y = NECESSARY_BLACK
  · simp [necessaryPx, h1, marker_colors_ne.symm]
  · by_cases h2 : img.px x y = NECESSARY_WHITE
    · simp [necessaryPx, h1, h2, marker_colors_ne]
    · simp [necessaryPx, h1, h2]

/-- Claim C8 witness: the round-trip theorem applied to the scenario
design, whose pixels are one black marker, one white marker and
transparency. -/
theorem c8_witness :
    ∃ d n, split_design scenarioImg = Except.ok (d, n) ∧
      ∀ x y, x < 41 → y < 41 →
        (((n.px x y).a = 255) ↔
          (scenarioImg.px x y = NECESSARY_BLACK ∨ scenarioImg.px x y = NECESSARY_WHITE)) ∧
        (scenarioImg.px x y = NECESSARY_BLACK → n.px x y = RGBA.mk 0 0 0 255) ∧
        (scenarioImg.px x y = NECESSARY_WHITE → n.px x y = RGBA.mk 255 255 255 255) :=
  c8_split_roundtrip scenarioImg rfl rfl rfl (by
    intro x y hx hy
    simp only [scenarioImg]
    split_ifs
    · left; rfl
    · right; left; rfl
    · right; right; rfl)

/-- Claim C9: `split_design` fails exactly when the mode is not RGBA or
the size is not 41x41; a failing split aborts the run before any worker
is started, and any RGBA 41x41 input splits successfully. -/
theorem c9_format_gate (img : PImage) (upload : Raster → Option String) (conc : Nat) :
    ((∃ e, split_design img = Except.error e) ↔
       (img.mode ≠ "RGBA" ∨ (img.width, img.height) ≠ QRCODE_SIZE)) ∧
    (∀ e, split_design img = Except.error e →
       mainModel upload img conc = Except.error (MainError.format e) ∧
       workersStarted (mainModel upload img conc) = 0) ∧
    (img.mode = "RGBA" → (img.width, img.height) = QRCODE_SIZE →
       ∃ d n, split_design img = Except.ok (d, n)) := by
  by_cases hm : img.mode = "RGBA"
  · by_cases hs : (img.width, img.height) = QRCODE_SIZE
    · have hw : img.width = 41 := by
        have := congrArg Prod.fst hs; simpa [QRCODE_SIZE] using this
      have hh : img.height = 41 := by
        have := congrArg Prod.snd hs; simpa [QRCODE_SIZE] using this
      refine ⟨?_, ?_, ?_⟩
      · simp [split_design, hm, hs]
      · intro e he; simp [split_design, hm, hs] at he
      · intro _ _; exact ⟨_, _, split_design_ok img hm hw hh⟩
    · refine ⟨?_, ?_, ?_⟩
      · simp [split_design, hm, hs]
      · intro e he
        simp [split_design, hm, hs] at he
        subst he
        simp [mainModel, workersStarted, split_design, hm, hs]
      · intro _ h; exact absurd h hs
  · refine ⟨?_, ?_, ?_⟩
    · simp [split_design, hm]
    · intro e he
      simp [split_design, hm] at he
      subst he
      simp [mainModel, workersStarted, split_design, hm]
    · intro h; exact absurd h hm

/-- Claim C9 witness: a wrong-mode design makes the run abort with a
format error before any of the 16 workers starts. -/
theorem c9_witness :
    mainModel stubUpload badModeImg 16 = Except.error (MainError.format FormatError.badMode) ∧
    workersStarted (mainModel stubUpload badModeImg 16) = 0 :=
  (c9_format_gate badModeImg stubUpload 16).2.1 FormatError.badMode
    (by simp [split_design, badModeImg])

/-- Claim C10: for every valid 41x41 RGBA design, the desired raster
contains no pixel equal to either marker color. -/
theorem c10_desired_no_marker (img : PImage) (hm : img.mode = "RGBA")
    (hw : img.width = 41) (hh : img.height = 41) :
    ∃ d n, split_design img = Except.ok (d, n) ∧
      ∀ x y, d.px x y ≠ NECESSARY_BLACK ∧ d.px x y ≠ NECESSARY_WHITE := by
  exact ⟨_, _, split_design_ok img hm hw hh, fun x y => desiredPx_no_marker (img.px x y)⟩

/-- Claim C10 witness: the no-marker theorem applied to the concrete
scenario design. -/
theorem c10_witness :
    ∃ d n, split_design scenarioImg = Except.ok (d, n) ∧
      ∀ x y, d.px x y ≠ NECESSARY_BLACK ∧ d.px x y ≠ NECESSARY_WHITE :=
  c10_desired_no_marker scenarioImg rfl rfl rfl
